import Mathlib

/-
Verification development for the curiefense decision core
(curieproxy/rust/curiefense: interface/mod.rs, tagging.rs, config/waf.rs).

The Rust source is shallowly embedded: pure functions become Lean functions,
Rust HashMaps become lookup functions (HMap), HashSets of locations become
lists, fallible code returns Except.  External collaborators (the regex
engine, the hyperscan pattern builder, the grasshopper challenge verifier,
the template language) are modelled as abstract parameters or opaque
wrappers, as the spec designates them external.
-/

namespace Curiefense

/-- Shallow model of Rust HashMap with String keys: a lookup function
from keys to optional values. -/
abbrev HMap (α : Type) : Type := String → Option α

/-- the empty map -/
def HMap.empty {α : Type} : HMap α := fun _ => none

/-- model of HashMap::insert: the new binding shadows any old binding for
the same key. -/
def HMap.insert {α : Type} (m : HMap α) (k : String) (v : α) : HMap α :=
  fun q => if q = k then some v else m q

/-- model of HashMap::extend: every binding of the second map is inserted
into the first, overwriting bindings that share a key (so on a key present
in both maps, the second map's value wins). -/
def HMap.extend {α : Type} (m1 m2 : HMap α) : HMap α :=
  fun k => match m2 k with
    | some v => some v
    | none => m1 k

/-- an evidence pointer into the request (interface::Location; the
block_reasons module is outside the provided sources, the variants are the
ones used by tagging.rs and listed in the spec data model). -/
inductive Location : Type
  | Ip : Location
  | Path : Location
  | Uri : Location
  | Request : Location
  | Headers : Location
  | Cookies : Location
  | HeaderValue : String → String → Location
  | UriArgumentValue : String → String → Location
  | CookieValue : String → String → Location
  deriving DecidableEq, Repr

/-- the kind of rule engine that originated a block reason. -/
inductive InitiatorKind : Type
  | Acl
  | RateLimit
  | GlobalFilter
  | ContentFilter
  | Restriction
  deriving DecidableEq, Repr

/-- raw action classification (config::raw::RawActionType, used by the
interface module). -/
inductive RawActionType : Type
  | Skip
  | Monitor
  | Custom
  | Challenge
  | Ichallenge
  deriving DecidableEq, Repr

/-- Modelled from the spec: BlockReason::inactive neutralizes the blocking
classification of a reason (the reason stays in the audit trail but no
longer counts as enforcement); the block_reasons module is missing from the
provided sources. -/
def RawActionType.inactive (_ : RawActionType) : RawActionType :=
  RawActionType.Monitor

/-- one piece of audit evidence tied to a rule engine and a location
(interface::BlockReason; the block_reasons module is outside the provided
sources, the fields are the ones constructed in interface/mod.rs and listed
in the spec data model). -/
structure BlockReason : Type where
  id : String
  name : String
  initiator : InitiatorKind
  location : Location
  action : RawActionType
  extra_locations : List Location
  extra : Option String
  deriving DecidableEq, Repr

/-- Modelled from the spec: BlockReason::global_filter builds the single
reason attached when a global-filter section enforces its action, recording
the section id and name with initiator kind GlobalFilter (the block_reasons
module is missing from the provided sources). -/
def BlockReason.global_filter (id name : String) : BlockReason :=
  { id := id
    name := name
    initiator := InitiatorKind.GlobalFilter
    location := Location.Request
    action := RawActionType.Monitor
    extra_locations := []
    extra := none }

/-- challenge granularity (grasshopper::GHMode; the grasshopper module is
an external collaborator, the variants are the ones used in
interface/mod.rs). -/
inductive GHMode : Type
  | Passive
  | Active
  | Interactive
  deriving DecidableEq, Repr

/-- the resolved, request-bound action type (interface::ActionType). -/
inductive ActionType : Type
  | Skip
  | Monitor
  | Block
  deriving DecidableEq, Repr

/-- is the action blocking (not passed to the underlying server) -/
def ActionType.is_blocking : ActionType → Bool
  | ActionType.Block => true
  | _ => false

/-- is the action final (no further processing) -/
def ActionType.is_final : ActionType → Bool
  | ActionType.Monitor => false
  | _ => true

/-- priority used by merge_decisions (interface/mod.rs, ActionType::priority). -/
def ActionType.priority : ActionType → Nat
  | ActionType.Block => 6
  | ActionType.Monitor => 1
  | ActionType.Skip => 9

/-- a parsed header template (utils::templating::RequestTemplate; the
template language is an external collaborator, a template is modelled by
its raw text). -/
structure RequestTemplate : Type where
  raw : String
  deriving DecidableEq, Repr

/-- model of parse_request_template: template parsing is external to this
core, the parsed template is represented by its text. -/
def parse_request_template (s : String) : RequestTemplate :=
  RequestTemplate.mk s

/-- an action, as formatted for outside consumption (interface::Action). -/
structure Action : Type where
  atype : ActionType
  block_mode : Bool
  status : Nat
  headers : Option (HMap String)
  content : String
  extra_tags : Option (List String)

/-- the Default instance of Action: the default blocking action. -/
def Action.default : Action :=
  { atype := ActionType.Block
    block_mode := true
    status := 503
    headers := none
    content := "request denied"
    extra_tags := none }

/-- declarative action type (interface::SimpleActionT). -/
inductive SimpleActionT : Type
  | Skip
  | Monitor
  | Custom (content : String)
  | Challenge (ch_level : GHMode)
  deriving DecidableEq, Repr

/-- priority used by stronger_decision (interface/mod.rs,
SimpleActionT::priority). -/
def SimpleActionT.priority : SimpleActionT → Nat
  | SimpleActionT.Custom _ => 8
  | SimpleActionT.Challenge _ => 6
  | SimpleActionT.Monitor => 1
  | SimpleActionT.Skip => 9

/-- alternate priority table used when merging with rate-limit decisions
(interface/mod.rs, SimpleActionT::rate_limit_priority). -/
def SimpleActionT.rate_limit_priority : SimpleActionT → Nat
  | SimpleActionT.Custom _ => 8
  | SimpleActionT.Challenge _ => 6
  | SimpleActionT.Monitor => 1
  | SimpleActionT.Skip => 0

/-- is the declarative action blocking (everything but Monitor). -/
def SimpleActionT.is_blocking : SimpleActionT → Bool
  | SimpleActionT.Monitor => false
  | _ => true

/-- does the declarative action belong to the Challenge variant (any
challenge granularity). -/
def SimpleActionT.isChallenge : SimpleActionT → Bool
  | SimpleActionT.Challenge _ => true
  | _ => false

/-- conversion back to the raw action classification (interface/mod.rs,
SimpleActionT::to_raw). -/
def SimpleActionT.to_raw : SimpleActionT → RawActionType
  | SimpleActionT.Skip => RawActionType.Skip
  | SimpleActionT.Monitor => RawActionType.Monitor
  | SimpleActionT.Custom _ => RawActionType.Custom
  | SimpleActionT.Challenge ch_level =>
      if ch_level = GHMode.Active then RawActionType.Challenge else RawActionType.Ichallenge

/-- the Default instance of SimpleActionT: a Custom action with literal
content blocked. -/
def SimpleActionT.default : SimpleActionT :=
  SimpleActionT.Custom "blocked"

/-- an action with its semantic meaning (interface::SimpleAction). -/
structure SimpleAction : Type where
  atype : SimpleActionT
  headers : Option (HMap RequestTemplate)
  status : Nat
  extra_tags : Option (List String)

/-- the Default instance of SimpleAction. -/
def SimpleAction.default : SimpleAction :=
  { atype := SimpleActionT.default
    headers := none
    status := 503
    extra_tags := none }

/-- the final decision for a request (interface::Decision): an optional
resolved action plus the accumulated block reasons. -/
structure Decision : Type where
  maction : Option Action
  reasons : List BlockReason

/-- Decision::pass -/
def Decision.pass (reasons : List BlockReason) : Decision :=
  { maction := none, reasons := reasons }

/-- Decision::action -/
def Decision.action (action : Action) (reasons : List BlockReason) : Decision :=
  { maction := some action, reasons := reasons }

/-- is the decision blocking -/
def Decision.is_blocking (d : Decision) : Bool :=
  (d.maction.map (fun a => a.atype.is_blocking)).getD false

/-- pre-action decision (interface::SimpleDecision). -/
inductive SimpleDecision : Type
  | Pass : SimpleDecision
  | Action : SimpleAction → List BlockReason → SimpleDecision

/-- the reason list carried by a simple decision (Pass carries none). -/
def SimpleDecision.reasons : SimpleDecision → List BlockReason
  | SimpleDecision.Pass => []
  | SimpleDecision.Action _ br => br

/-- the custom content of the action carried by a simple decision, when
there is one. -/
def SimpleDecision.actionContent : SimpleDecision → Option String
  | SimpleDecision.Pass => none
  | SimpleDecision.Action s _ =>
      match s.atype with
      | SimpleActionT.Custom c => some c
      | _ => none

/-- second half of merge_decisions: given the kept and the thrown decision,
merge the thrown decision's headers into the kept action when the kept
action is a monitor action, then append the thrown decision's reasons. -/
def mergeKept (kept thrown : Decision) : Decision :=
  let kept2 : Decision :=
    match kept.maction with
    | some action =>
        if action.atype = ActionType.Monitor then
          let throw_headers : Option (HMap String) := thrown.maction.bind (fun a => a.headers)
          let newHeaders : Option (HMap String) :=
            match action.headers with
            | some h => some (HMap.extend h (throw_headers.getD HMap.empty))
            | none => throw_headers
          { kept with maction := some { action with headers := newHeaders } }
        else kept
    | none => kept
  { kept2 with reasons := kept2.reasons ++ thrown.reasons }

/-- Merge two decisions together (interface/mod.rs, merge_decisions): the
decision whose action has the higher priority is kept (absent actions lose
against present ones, the first argument is kept when both are absent or
the priorities are tied), the other decision is thrown away except for its
reasons, and headers are merged into a kept monitor action. -/
def merge_decisions (d1 d2 : Decision) : Decision :=
  let p : Decision × Decision :=
    match d1.maction, d2.maction with
    | some a1, some a2 =>
        if a2.atype.priority ≤ a1.atype.priority then (d1, d2) else (d2, d1)
    | none, some _ => (d2, d1)
    | some _, none => (d1, d2)
    | none, none => (d1, d2)
  mergeKept p.1 p.2

/-- identical to merge_decisions, but for simple decisions
(interface/mod.rs, stronger_decision). -/
def stronger_decision : SimpleDecision → SimpleDecision → SimpleDecision
  | SimpleDecision.Pass, d2 => d2
  | d1, SimpleDecision.Pass => d1
  | SimpleDecision.Action s1 br1, SimpleDecision.Action s2 br2 =>
      let kept_reasons := br1 ++ br2
      if s2.atype.priority < s1.atype.priority then
        SimpleDecision.Action s1 kept_reasons
      else if s1.atype = SimpleActionT.Monitor ∧ s2.atype = SimpleActionT.Monitor then
        let newHeaders : Option (HMap RequestTemplate) :=
          match s1.headers, s2.headers with
          | none, none => none
          | some h1, none => some h1
          | none, some h2 => some h2
          | some h1, some h2 => some (HMap.extend h1 h2)
        SimpleDecision.Action { s1 with headers := newHeaders } kept_reasons
      else
        SimpleDecision.Action s2 kept_reasons

/-- an IP address, modelled by family and numeric value (std::net::IpAddr,
external standard-library type). -/
inductive IpAddr : Type
  | V4 (a : Nat)
  | V6 (a : Nat)
  deriving DecidableEq, Repr

/-- an IPv4 CIDR range (ipnet::Ipv4Net, external crate), modelled by base
address and prefix length with standard CIDR containment. -/
structure Range4 : Type where
  base : Nat
  bits : Nat
  deriving DecidableEq, Repr

/-- CIDR containment for IPv4 -/
def Range4.containsIp (r : Range4) (a : Nat) : Bool :=
  a / 2 ^ (32 - r.bits) = r.base / 2 ^ (32 - r.bits)

/-- an IPv6 CIDR range (ipnet::Ipv6Net, external crate). -/
structure Range6 : Type where
  base : Nat
  bits : Nat
  deriving DecidableEq, Repr

/-- CIDR containment for IPv6 -/
def Range6.containsIp (r : Range6) (a : Nat) : Bool :=
  a / 2 ^ (128 - r.bits) = r.base / 2 ^ (128 - r.bits)

/-- a CIDR range of either family (ipnet::IpNet, external crate): an
address of the other family is never contained. -/
inductive Network : Type
  | V4 (r : Range4)
  | V6 (r : Range6)
  deriving DecidableEq, Repr

/-- containment for a generic network -/
def Network.containsAddr : Network → IpAddr → Bool
  | Network.V4 r, IpAddr.V4 a => r.containsIp a
  | Network.V6 r, IpAddr.V6 a => r.containsIp a
  | _, _ => false

/-- an abstract compiled regular expression (regex::Regex, external crate),
modelled by its matching function. -/
abbrev Regex : Type := String → Bool

/-- model of Regex::is_match -/
def Regex.is_match (re : Regex) (s : String) : Bool := re s

/-- a single-string global-filter predicate
(config::globalfilter::SingleEntry): an exact string and an optional
regex. -/
structure SingleEntry : Type where
  exact : String
  re : Option Regex

/-- a keyed global-filter predicate (config::globalfilter::PairEntry). -/
structure PairEntry : Type where
  key : String
  exact : String
  re : Option Regex

/-- a request field container (requestfields::RequestField, outside the
provided sources): modelled as an association list with first-match
lookup. -/
abbrev RequestField : Type := List (String × String)

/-- lookup in a request field container -/
def RequestField.get (s : RequestField) (k : String) : Option String :=
  (s.find? (fun p => p.1 = k)).map (fun p => p.2)

/-- number of entries of a request field container -/
def RequestField.len (s : RequestField) : Nat := s.length

/-- geo-IP enrichment data (utils::GeoIp, outside the provided sources;
the fields are the ones read by tagging.rs). -/
structure GeoIp : Type where
  ip : Option IpAddr
  ipstr : String
  country_iso : Option String
  country_name : Option String
  region : Option String
  subregion : Option String
  continent_name : Option String
  continent_code : Option String
  city_name : Option String
  city : Option String := none
  asn : Option Nat
  company : Option String

/-- query information of a request (utils::QueryInfo, outside the provided
sources; the fields are the ones read by tagging.rs). -/
structure QueryInfo : Type where
  qpath : String
  query : String
  uri : String
  args : RequestField

/-- request metadata (utils::RequestMeta). -/
structure RequestMeta : Type where
  method : String

/-- inner request information (utils::RInfo). -/
structure RInfo : Type where
  host : String
  qinfo : QueryInfo
  meta : RequestMeta
  geoip : GeoIp

/-- the normalized request snapshot (utils::RequestInfo, outside the
provided sources; the fields are the ones read by tagging.rs and
interface/mod.rs). -/
structure RequestInfo : Type where
  headers : RequestField
  cookies : RequestField
  rinfo : RInfo

/-- Modelled from the spec: the per-request tag set
(interface::tagging::Tags, missing from the provided sources) maps each
tag string to the set of locations that justified it, locations being
accumulated by union; modelled as an association list from tag to location
list. -/
abbrev Tags : Type := List (String × List Location)

/-- the empty tag set (Tags::default) -/
def Tags.default : Tags := []

/-- lookup of a tag's justifying locations (Tags::get) -/
def Tags.get (t : Tags) (k : String) : Option (List Location) :=
  (t.find? (fun p => p.1 = k)).map (fun p => p.2)

/-- does the tag set contain a tag (Tags::contains) -/
def Tags.containsTag (t : Tags) (k : String) : Bool :=
  (t.get k).isSome

/-- add locations to a tag, creating the tag when absent (union of
justifying locations). -/
def Tags.insertLocs (t : Tags) (k : String) (locs : List Location) : Tags :=
  match t with
  | [] => [(k, locs)]
  | (k', ls) :: rest =>
      if k' = k then (k', ls ++ locs) :: rest
      else (k', ls) :: Tags.insertLocs rest k locs

/-- Tags::insert: record a tag justified by one location -/
def Tags.insert (t : Tags) (k : String) (loc : Location) : Tags :=
  t.insertLocs k [loc]

/-- Tags::insert_qualified: record a qualified tag of the form
category:value -/
def Tags.insert_qualified (t : Tags) (cat value : String) (loc : Location) : Tags :=
  t.insert (cat ++ ":" ++ value) loc

/-- Tags::extend: merge another tag set into this one, per-key union of
locations -/
def Tags.extend (t other : Tags) : Tags :=
  other.foldl (fun acc p => acc.insertLocs p.1 p.2) t

/-- Modelled from the spec: a global-filter section's declared tags with
the matched locations attached as justification (with_locs). -/
def withLocs (names : List String) (locs : List Location) : Tags :=
  names.map (fun n => (n, locs))

/-- relation combining the children of a boolean filter tree node
(config::raw::Relation). -/
inductive Relation : Type
  | And
  | Or
  deriving DecidableEq, Repr

/-- a negatable leaf predicate of the global-filter boolean tree
(config::globalfilter::GlobalFilterEntryE; variants as used by
tagging.rs). -/
inductive GlobalFilterEntryE : Type
  | Ip (addr : IpAddr)
  | Network (net : Network)
  | Range4 (net4 : Range4)
  | Range6 (net6 : Range6)
  | Path (pth : SingleEntry)
  | Query (qry : SingleEntry)
  | Uri (uri : SingleEntry)
  | Country (cty : SingleEntry)
  | Region (rgn : SingleEntry)
  | SubRegion (srgn : SingleEntry)
  | Method (mtd : SingleEntry)
  | Header (hdr : PairEntry)
  | Args (arg : PairEntry)
  | Cookies (cke : PairEntry)
  | Asn (asn : Nat)
  | Company (cmp : SingleEntry)
  | Authority (aut : SingleEntry)
  | Tag (tg : SingleEntry)

/-- a leaf with its negation flag (config::globalfilter::GlobalFilterEntry). -/
structure GlobalFilterEntry : Type where
  negated : Bool
  entry : GlobalFilterEntryE

/-- a subsection: a relation over leaves
(config::globalfilter::GlobalFilterSSection). -/
structure GlobalFilterSSection : Type where
  relation : Relation
  entries : List GlobalFilterEntry

/-- a global-filter section (config::globalfilter::GlobalFilterSection;
outside the provided sources, fields as used by tagging.rs). -/
structure GlobalFilterSection : Type where
  id : String
  name : String
  tags : List String
  relation : Relation
  sections : List GlobalFilterSSection
  action : Option SimpleAction

/-- the outcome of matching a piece of the filter tree
(tagging::MatchResult): the positive location evidence and the boolean
outcome. -/
structure MatchResult : Type where
  matched : List Location
  matching : Bool
  deriving DecidableEq

/-- one step of the relation fold (the body of the for loop in tagging.rs,
check_relation): accumulate the child's evidence and combine the booleans
according to the relation. -/
def relationStep {A : Type} (rinfo : RequestInfo) (tags : Tags) (rel : Relation)
    (checker : RequestInfo → Tags → A → MatchResult) (acc : MatchResult) (sub : A) :
    MatchResult :=
  let mtch := checker rinfo tags sub
  { matched := acc.matched ++ mtch.matched
    matching :=
      match rel with
      | Relation.And => acc.matching && mtch.matching
      | Relation.Or => acc.matching || mtch.matching }

/-- fold a relation over a list of children (tagging.rs, check_relation):
And starts from true and folds with logical and, Or starts from false and
folds with logical or; every child's positive evidence is accumulated. -/
def check_relation {A : Type} (rinfo : RequestInfo) (tags : Tags) (rel : Relation)
    (elems : List A) (checker : RequestInfo → Tags → A → MatchResult) : MatchResult :=
  elems.foldl (relationStep rinfo tags rel checker)
    { matched := []
      matching :=
        match rel with
        | Relation.And => true
        | Relation.Or => false }

/-- check a keyed predicate against a request field container (tagging.rs,
check_pair). -/
def check_pair (pr : PairEntry) (s : RequestField) (locf : String → Location) :
    Option (List Location) :=
  (s.get pr.key).bind (fun v =>
    if pr.exact = v || (pr.re.map (fun re => re.is_match v)).getD false then
      some [locf v]
    else
      none)

/-- check a single-string predicate (tagging.rs, check_single). -/
def check_single (pr : SingleEntry) (s : String) (loc : Location) :
    Option (List Location) :=
  if pr.exact = s || (pr.re.map (fun re => re.is_match s)).getD false then
    some [loc]
  else
    none

/-- positive evidence behind a boolean (tagging.rs, check_entry's local
helper bool). -/
def boolLoc (loc : Location) (b : Bool) : Option (List Location) :=
  if b then some [loc] else none

/-- positive evidence behind an optional boolean (tagging.rs, check_entry's
local helper mbool). -/
def mboolLoc (loc : Location) (mb : Option Bool) : Option (List Location) :=
  boolLoc loc (mb.getD false)

/-- the raw match result of a leaf predicate, before negation (the big
match inside tagging.rs check_entry computing r). -/
def entryMatchR (rinfo : RequestInfo) (tags : Tags) : GlobalFilterEntryE → Option (List Location)
  | GlobalFilterEntryE.Ip addr =>
      mboolLoc Location.Ip (rinfo.rinfo.geoip.ip.map (fun i => i = addr))
  | GlobalFilterEntryE.Network net =>
      mboolLoc Location.Ip (rinfo.rinfo.geoip.ip.map (fun i => net.containsAddr i))
  | GlobalFilterEntryE.Range4 net4 =>
      boolLoc Location.Ip
        (match rinfo.rinfo.geoip.ip with
         | some (IpAddr.V4 ip4) => net4.containsIp ip4
         | _ => false)
  | GlobalFilterEntryE.Range6 net6 =>
      boolLoc Location.Ip
        (match rinfo.rinfo.geoip.ip with
         | some (IpAddr.V6 ip6) => net6.containsIp ip6
         | _ => false)
  | GlobalFilterEntryE.Path pth => check_single pth rinfo.rinfo.qinfo.qpath Location.Path
  | GlobalFilterEntryE.Query qry => check_single qry rinfo.rinfo.qinfo.query Location.Path
  | GlobalFilterEntryE.Uri uri => check_single uri rinfo.rinfo.qinfo.uri Location.Uri
  | GlobalFilterEntryE.Country cty =>
      rinfo.rinfo.geoip.country_iso.bind (fun ccty => check_single cty ccty.toLower Location.Ip)
  | GlobalFilterEntryE.Region rgn =>
      rinfo.rinfo.geoip.region.bind (fun ccty => check_single rgn ccty.toLower Location.Ip)
  | GlobalFilterEntryE.SubRegion srgn =>
      rinfo.rinfo.geoip.subregion.bind (fun ccty => check_single srgn ccty.toLower Location.Ip)
  | GlobalFilterEntryE.Method mtd => check_single mtd rinfo.rinfo.meta.method Location.Request
  | GlobalFilterEntryE.Header hdr =>
      check_pair hdr rinfo.headers (fun h => Location.HeaderValue hdr.key h)
  | GlobalFilterEntryE.Args arg =>
      check_pair arg rinfo.rinfo.qinfo.args (fun a => Location.UriArgumentValue arg.key a)
  | GlobalFilterEntryE.Cookies cke =>
      check_pair cke rinfo.cookies (fun c => Location.CookieValue cke.key c)
  | GlobalFilterEntryE.Asn asn =>
      mboolLoc Location.Ip (rinfo.rinfo.geoip.asn.map (fun casn => casn = asn))
  | GlobalFilterEntryE.Company cmp =>
      rinfo.rinfo.geoip.company.bind (fun ccmp => check_single cmp ccmp Location.Ip)
  | GlobalFilterEntryE.Authority aut => check_single aut rinfo.rinfo.host Location.Request
  | GlobalFilterEntryE.Tag tg => tags.get tg.exact

/-- check one leaf predicate, applying the negation flag (tagging.rs,
check_entry): a match yields the positive evidence with the negated
boolean, a non-match yields empty evidence with the negation flag itself. -/
def check_entry (rinfo : RequestInfo) (tags : Tags) (sub : GlobalFilterEntry) : MatchResult :=
  match entryMatchR rinfo tags sub.entry with
  | some matched => { matched := matched, matching := !sub.negated }
  | none => { matched := [], matching := sub.negated }

/-- check a subsection: its relation folded over its leaves (tagging.rs,
check_subsection). -/
def check_subsection (rinfo : RequestInfo) (tags : Tags) (sub : GlobalFilterSSection) : MatchResult :=
  check_relation rinfo tags sub.relation sub.entries check_entry

/-- Modelled from the spec: the stats collector for the mapping stage
(interface::stats, missing from the provided sources); tag_request only
records the total number of global-filter sections and how many matched. -/
structure StatsCollect : Type where
  gf_total : Nat
  gf_matched : Nat
  deriving DecidableEq, Repr

/-- StatsCollect::mapped: record the section totals for the mapped stage. -/
def StatsCollect.mapped (_ : StatsCollect) (total matched : Nat) : StatsCollect :=
  { gf_total := total, gf_matched := matched }

/-- the condition under which a matching section with a declared action is
informational only (tagging.rs, tag_request: a Monitor action, or a
Challenge action while the request is classified human). -/
def softAction (a : SimpleAction) (is_human : Bool) : Prop :=
  a.atype = SimpleActionT.Monitor ∨ (a.atype.isChallenge ∧ is_human)

instance (a : SimpleAction) (is_human : Bool) : Decidable (softAction a is_human) := by
  unfold softAction
  infer_instance

/-- the section loop of tag_request (tagging.rs, tag_request's for loop):
walks the global-filter sections in order with the evolving tag set and
matched-section counter; a matching section applies its tags, and when it
declares an enforcing action the loop returns that action immediately with
a single global-filter block reason. -/
def tagLoop (is_human : Bool) (rinfo : RequestInfo) :
    List GlobalFilterSection → Tags → Nat → Tags × SimpleDecision × Nat
  | [], tags, matched => (tags, SimpleDecision.Pass, matched)
  | psection :: rest, tags, matched =>
      let mtch := check_relation rinfo tags psection.relation psection.sections check_subsection
      if mtch.matching then
        let matched' := matched + 1
        let rtags := withLocs psection.tags mtch.matched
        let tags' := tags.extend rtags
        match psection.action with
        | some a =>
            if softAction a is_human then
              tagLoop is_human rinfo rest tags' matched'
            else
              (tags',
               SimpleDecision.Action a [BlockReason.global_filter psection.id psection.name],
               matched')
        | none => tagLoop is_human rinfo rest tags' matched'
      else tagLoop is_human rinfo rest tags matched

/-- does no section of the list enforce an action, walking the sections
with the same evolving tag set as tagLoop does. -/
def noEnforce (is_human : Bool) (rinfo : RequestInfo) :
    List GlobalFilterSection → Tags → Bool
  | [], _ => true
  | psection :: rest, tags =>
      let mtch := check_relation rinfo tags psection.relation psection.sections check_subsection
      if mtch.matching then
        let tags' := tags.extend (withLocs psection.tags mtch.matched)
        match psection.action with
        | some a =>
            if softAction a is_human then noEnforce is_human rinfo rest tags'
            else false
        | none => noEnforce is_human rinfo rest tags'
      else noEnforce is_human rinfo rest tags

/-- the baseline tags always set before filter evaluation (tagging.rs,
tag_request, before the section loop). -/
def baselineTags (is_human : Bool) (rinfo : RequestInfo) : Tags :=
  let tags := Tags.default
  let tags :=
    if is_human then tags.insert "human" Location.Request
    else tags.insert "bot" Location.Request
  let tags := tags.insert_qualified "headers" (toString rinfo.headers.len) Location.Headers
  let tags := tags.insert_qualified "cookies" (toString rinfo.cookies.len) Location.Cookies
  let tags := tags.insert_qualified "args" (toString rinfo.rinfo.qinfo.args.len) Location.Request
  let tags := tags.insert_qualified "host" rinfo.rinfo.host Location.Request
  let tags := tags.insert_qualified "ip" rinfo.rinfo.geoip.ipstr Location.Request
  let tags := tags.insert_qualified "geo-continent-name"
    (rinfo.rinfo.geoip.continent_name.getD "nil") Location.Request
  let tags := tags.insert_qualified "geo-continent-code"
    (rinfo.rinfo.geoip.continent_code.getD "nil") Location.Request
  let tags := tags.insert_qualified "geo-city"
    (rinfo.rinfo.geoip.city_name.getD "nil") Location.Request
  let tags := tags.insert_qualified "geo-country"
    (rinfo.rinfo.geoip.country_name.getD "nil") Location.Request
  let tags := tags.insert_qualified "geo-region"
    (rinfo.rinfo.geoip.region.getD "nil") Location.Request
  let tags := tags.insert_qualified "geo-subregion"
    (rinfo.rinfo.geoip.subregion.getD "nil") Location.Request
  match rinfo.rinfo.geoip.asn with
  | none => tags.insert_qualified "geo-asn" "nil" Location.Request
  | some asn => tags.insert_qualified "geo-asn" (toString asn) Location.Request

/-- evaluate the global filters against one request (tagging.rs,
tag_request): set the baseline tags, then walk the sections; returns the
accumulated tags, the resulting pre-action decision, and the mapped
stats. -/
def tag_request (stats : StatsCollect) (is_human : Bool)
    (globalfilters : List GlobalFilterSection) (rinfo : RequestInfo) :
    Tags × SimpleDecision × StatsCollect :=
  let tags := baselineTags is_human rinfo
  let r := tagLoop is_human rinfo globalfilters tags 0
  (r.1, r.2.1, stats.mapped globalfilters.length r.2.2)

/-- classification confidence for challenge gating
(grasshopper::PrecisionLevel; the grasshopper module is an external
collaborator). Modelled from the spec: it distinguishes human/automated
traffic and whether the interactive signal is present. -/
structure PrecisionLevel : Type where
  human : Bool
  interactive : Bool
  deriving DecidableEq, Repr

/-- is the request classified human -/
def PrecisionLevel.is_human (p : PrecisionLevel) : Bool := p.human

/-- is the interactive signal present -/
def PrecisionLevel.is_interactive (p : PrecisionLevel) : Bool := p.interactive

/-- the challenge-issuance capability (grasshopper::Grasshopper, external
collaborator): given a request, the unresolved reasons and a challenge
mode, it produces a challenge decision. -/
structure Grasshopper : Type where
  phase01 : RequestInfo → List BlockReason → GHMode → Decision

/-- model of grasshopper::challenge_phase01: delegate to the capability. -/
def challenge_phase01 (gh : Grasshopper) (rinfo : RequestInfo)
    (reasons : List BlockReason) (mode : GHMode) : Decision :=
  gh.phase01 rinfo reasons mode

/-- raw action parameters (config::raw::RawActionParams, outside the
provided sources; the fields are the ones read by SimpleAction::resolve). -/
structure RawActionParams : Type where
  content : Option String
  status : Option Nat
  headers : Option (List (String × String))

/-- a raw, declarative action (config::raw::RawAction, outside the
provided sources; the fields are the ones read by SimpleAction::resolve). -/
structure RawAction : Type where
  id : String
  type_ : RawActionType
  params : RawActionParams
  tags : List String

/-- config-time resolution of a raw action (interface/mod.rs,
SimpleAction::resolve): maps the raw action type to SimpleActionT (an
unspecified Custom content defaults to the empty string via
unwrap_or_default), the status to 503 when unspecified, parses header
templates once, and collects the extra tags. -/
def SimpleAction.resolve (rawaction : RawAction) : Except String (String × SimpleAction) :=
  let id := rawaction.id
  let atype : SimpleActionT :=
    match rawaction.type_ with
    | RawActionType.Skip => SimpleActionT.Skip
    | RawActionType.Monitor => SimpleActionT.Monitor
    | RawActionType.Custom => SimpleActionT.Custom (rawaction.params.content.getD "")
    | RawActionType.Challenge => SimpleActionT.Challenge GHMode.Active
    | RawActionType.Ichallenge => SimpleActionT.Challenge GHMode.Interactive
  let status := rawaction.params.status.getD 503
  let headers : Option (HMap RequestTemplate) :=
    rawaction.params.headers.map (fun hm =>
      hm.foldl (fun m kv => m.insert kv.1 (parse_request_template kv.2)) HMap.empty)
  let extra_tags : Option (List String) :=
    if rawaction.tags.isEmpty then none else some rawaction.tags
  Except.ok (id, { atype := atype, status := status, headers := headers, extra_tags := extra_tags })

/-- config-time resolution of a whole raw action list (interface/mod.rs,
SimpleAction::resolve_actions): failed actions are dropped with an error
logged (logging is elided), the rest proceed. -/
def SimpleAction.resolve_actions (rawactions : List RawAction) : HMap SimpleAction :=
  rawactions.foldl
    (fun out raction =>
      match SimpleAction.resolve raction with
      | Except.ok (id, action) => out.insert id action
      | Except.error _ => out)
    HMap.empty

/-- model of render_template (interface/mod.rs): template rendering
resolves selector parts against the request and tag set through external
collaborators (utils::selector, serde_json); it is modelled as returning
the template's raw text. -/
def render_template (_ : RequestInfo) (_ : Tags) (t : RequestTemplate) : String :=
  t.raw

/-- render every header template of a header map against the request
(interface/mod.rs, the headers map in SimpleAction::build_decision). -/
def renderHeaders (rinfo : RequestInfo) (tags : Tags) (hm : HMap RequestTemplate) : HMap String :=
  fun k => (hm k).map (render_template rinfo tags)

/-- build a concrete decision from a declarative action (interface/mod.rs,
SimpleAction::build_decision): starts from the default blocking action,
applies the declared status and rendered headers, then branches on the
action type; a challenge whose precision requirement is unmet returns the
accumulated reasons on the error channel; a satisfied challenge downgrades
to Monitor and marks its reasons inactive; every Monitor result is forced
to status 200 and non-blocking. -/
def build_decision (self : SimpleAction) (rinfo : RequestInfo) (tags : Tags)
    (precision_level : PrecisionLevel) (reason : List BlockReason) :
    Except (List BlockReason) Decision :=
  let action0 := Action.default
  let action1 :=
    { action0 with
        block_mode := action0.atype.is_blocking,
        status := self.status,
        headers := self.headers.map (renderHeaders rinfo tags) }
  match self.atype with
  | SimpleActionT.Skip =>
      let action2 := { action1 with atype := ActionType.Skip }
      Except.ok (Decision.action action2 reason)
  | SimpleActionT.Monitor =>
      let action2 := { action1 with atype := ActionType.Monitor, status := 200, block_mode := false }
      Except.ok (Decision.action action2 reason)
  | SimpleActionT.Custom content =>
      let action2 := { action1 with atype := ActionType.Block, content := content }
      Except.ok (Decision.action action2 reason)
  | SimpleActionT.Challenge ch_level =>
      let is_human :=
        match ch_level with
        | GHMode.Passive => precision_level.is_human
        | GHMode.Active => precision_level.is_human
        | GHMode.Interactive => precision_level.is_interactive
      if !is_human then
        Except.error reason
      else
        let reason' := reason.map (fun r => { r with action := r.action.inactive })
        let action2 := { action1 with atype := ActionType.Monitor, status := 200, block_mode := false }
        Except.ok (Decision.action action2 reason')

/-- turn a declarative action into the final decision (interface/mod.rs,
SimpleAction::to_decision): apply the action-level extra tags, short-cut
Skip to a pass decision preserving the reasons, otherwise build the
decision; an unresolved challenge goes to the challenge capability when
available and falls back to the default blocking action otherwise.
Returns the decision together with the updated tag set (the Rust tags
argument is mutable). -/
def to_decision (self : SimpleAction) (precision_level : PrecisionLevel)
    (mgh : Option Grasshopper) (rinfo : RequestInfo) (tags : Tags)
    (reason : List BlockReason) : Decision × Tags :=
  let tags := (self.extra_tags.getD []).foldl (fun t s => t.insert s Location.Request) tags
  if self.atype = SimpleActionT.Skip then
    ({ maction := none, reasons := reason }, tags)
  else
    match build_decision self rinfo tags precision_level reason with
    | Except.error nreason =>
        match mgh with
        | some gh =>
            let ch_mode :=
              match self.atype with
              | SimpleActionT.Challenge ch_level => ch_level
              | _ => GHMode.Active
            (challenge_phase01 gh rinfo nreason ch_mode, tags)
        | none => (Decision.action Action.default nreason, tags)
    | Except.ok a => (a, tags)

/-- a fixed-shape record over the four scanned request fields
(config::waf::Section). -/
structure Section (A : Type) : Type where
  headers : A
  cookies : A
  args : A
  path : A

/-- selector into a Section (config::waf::SectionIdx). -/
inductive SectionIdx : Type
  | Headers
  | Cookies
  | Args
  | Path
  deriving DecidableEq, Repr

/-- Section::get -/
def Section.get {A : Type} (s : Section A) : SectionIdx → A
  | SectionIdx.Headers => s.headers
  | SectionIdx.Cookies => s.cookies
  | SectionIdx.Args => s.args
  | SectionIdx.Path => s.path

/-- a decoding transformation applied before matching
(config::waf::Transformation). -/
inductive Transformation : Type
  | Base64Decode
  | HtmlEntitiesDecode
  | UnicodeDecode
  | UrlDecode
  deriving DecidableEq, Repr

/-- a compiled per-entry matcher (config::waf::WafEntryMatch). -/
structure WafEntryMatch : Type where
  reg : Option Regex
  restrict : Bool
  mask : Bool
  exclusions : List String

/-- a compiled per-field section (config::waf::WafSection): numeric bounds
plus exact-name matchers and ordered fallback regex rules. -/
structure WafSection : Type where
  max_count : Nat
  max_length : Nat
  names : List (String × WafEntryMatch)
  regex : List (Regex × WafEntryMatch)

/-- a compiled WAF profile (config::waf::WafProfile). -/
structure WafProfile : Type where
  id : String
  name : String
  ignore_alphanum : Bool
  sections : Section WafSection
  decoding : List Transformation

/-- a raw per-entry matcher definition (config::raw::RawWafEntryMatch,
outside the provided sources; the fields are the ones read by
config/waf.rs). -/
structure RawWafEntryMatch : Type where
  key : String
  reg : Option String
  restrict : Bool
  mask : Option Bool
  exclusions : List (List (String × String))

/-- raw per-field properties (config::raw::RawWafProperties). -/
structure RawWafProperties : Type where
  names : List RawWafEntryMatch
  regex : List RawWafEntryMatch

/-- a raw WAF profile definition (config::raw::RawWafProfile). -/
structure RawWafProfile : Type where
  id : String
  name : String
  ignore_alphanum : Bool
  headers : RawWafProperties
  cookies : RawWafProperties
  args : RawWafProperties
  path : RawWafProperties
  max_header_length : Nat
  max_headers_count : Nat
  max_cookie_length : Nat
  max_cookies_count : Nat
  max_arg_length : Nat
  max_args_count : Nat

/-- Rust's collect over an iterator of Results: map a fallible function
over a list, stopping at the first error. -/
def mapExcept {E A B : Type} (f : A → Except E B) : List A → Except E (List B)
  | [] => Except.ok []
  | a :: rest => do
      let b ← f a
      let bs ← mapExcept f rest
      Except.ok (b :: bs)

/-- compile one raw entry match (config/waf.rs, mk_entry_match): an empty
pattern string is normalized to no regex, a non-empty pattern must compile
(the regex engine is external, so compilation is the rcompile parameter);
the exclusion maps are flattened to their rule-id keys. -/
def mk_entry_match (rcompile : String → Except String Regex) (em : RawWafEntryMatch) :
    Except String (String × WafEntryMatch) := do
  let reg : Option Regex ←
    match em.reg with
    | none => Except.ok none
    | some s =>
        if s = "" then Except.ok none
        else do
          let re ← rcompile s
          Except.ok (some re)
  Except.ok
    (em.key,
     { restrict := em.restrict
       mask := em.mask.getD false
       exclusions := (em.exclusions.map (fun mp => mp.map (fun p => p.1))).flatten
       reg := reg })

/-- compile one raw per-field section (config/waf.rs, mk_section): all
name entries and all regex rules must compile, and the section's numeric
bounds are applied. -/
def mk_section (rcompile : String → Except String Regex) (props : RawWafProperties)
    (max_length max_count : Nat) : Except String WafSection := do
  let mnames ← mapExcept (mk_entry_match rcompile) props.names
  let mregex ← mapExcept
    (fun e => do
      let sv ← mk_entry_match rcompile e
      let re ← rcompile sv.1
      Except.ok (re, sv.2))
    props.regex
  Except.ok
    { max_count := max_count
      max_length := max_length
      names := mnames
      regex := mregex }

/-- compile one raw profile (config/waf.rs, convert_entry): the four
sections must all compile (path and args share the args bounds), and the
fixed decoding pipeline is attached. -/
def convert_entry (rcompile : String → Except String Regex) (entry : RawWafProfile) :
    Except String (String × WafProfile) := do
  let hs ← mk_section rcompile entry.headers entry.max_header_length entry.max_headers_count
  let cs ← mk_section rcompile entry.cookies entry.max_cookie_length entry.max_cookies_count
  let as_ ← mk_section rcompile entry.args entry.max_arg_length entry.max_args_count
  let ps ← mk_section rcompile entry.path entry.max_arg_length entry.max_args_count
  Except.ok
    (entry.id,
     { id := entry.id
       name := entry.name
       ignore_alphanum := entry.ignore_alphanum
       sections := { headers := hs, cookies := cs, args := as_, path := ps }
       decoding := [Transformation.Base64Decode, Transformation.UrlDecode,
                    Transformation.HtmlEntitiesDecode, Transformation.UnicodeDecode] })

/-- one step of the profile fold (the loop body of WafProfile::resolve):
insert the converted profile on success, drop it on error (the error is
logged; logging is elided). -/
def resolveStep (rcompile : String → Except String Regex)
    (out : HMap WafProfile) (rp : RawWafProfile) : HMap WafProfile :=
  match convert_entry rcompile rp with
  | Except.ok kv => out.insert kv.1 kv.2
  | Except.error _ => out

/-- compile a list of raw profiles (config/waf.rs, WafProfile::resolve):
a profile that fails to compile is dropped with an error logged (logging
is elided) and the rest of the load proceeds. -/
def WafProfile.resolve (rcompile : String → Except String Regex)
    (raw : List RawWafProfile) : HMap WafProfile :=
  raw.foldl (resolveStep rcompile) HMap.empty

/-- hyperscan compile flags used for signatures (external crate): the
signature set is compiled multi-line, dot-matches-all and
case-insensitive. -/
structure CompileFlags : Type where
  multiline : Bool
  dotall : Bool
  caseless : Bool
  deriving DecidableEq, Repr

/-- a compiled hyperscan pattern (external crate), opaque. -/
structure Pattern : Type where
  tag : Nat
  deriving DecidableEq, Repr

/-- a compiled vectored multi-pattern database (external crate), opaque. -/
structure VectoredDatabase : Type where
  tag : Nat
  deriving DecidableEq, Repr

/-- a raw signature definition (config::raw::WafSignature, outside the
provided sources; config/waf.rs reads its operand). -/
structure WafSignature : Type where
  id : String
  operand : String
  deriving DecidableEq, Repr

/-- the compiled signature database with its metadata
(config::waf::WafSignatures). -/
structure WafSignatures : Type where
  db : VectoredDatabase
  ids : List WafSignature

/-- compile one signature (config/waf.rs, convert_signature): the pattern
is built with the multi-line, dot-matches-all and case-insensitive flags;
pattern compilation is external, the pcompile parameter. -/
def convert_signature (pcompile : String → CompileFlags → Except String Pattern)
    (entry : WafSignature) : Except String Pattern :=
  pcompile entry.operand { multiline := true, dotall := true, caseless := true }

/-- compile the whole signature list into one database (config/waf.rs,
resolve_signatures): every signature must compile and the pattern set must
build (database building is external, the build parameter); any failure
fails the whole signature set. -/
def resolve_signatures (pcompile : String → CompileFlags → Except String Pattern)
    (build : List Pattern → Except String VectoredDatabase)
    (raws : List WafSignature) : Except String WafSignatures := do
  let patterns ← mapExcept (convert_signature pcompile) raws
  let db ← build patterns
  Except.ok { db := db, ids := raws }

/-
Concrete fixtures, used to evaluate the embedded code on explicit inputs.
-/

/-- a concrete global-filter block reason -/
def br0 : BlockReason := BlockReason.global_filter "gf1" "gf one"

/-- a second, distinct concrete block reason -/
def brB : BlockReason :=
  { id := "acl0"
    name := "acl zero"
    initiator := InitiatorKind.Acl
    location := Location.Ip
    action := RawActionType.Custom
    extra_locations := []
    extra := none }

/-- a concrete header map binding x to the string kept -/
def h1c : HMap String := fun k => if k = "x" then some "kept" else none

/-- a concrete header map binding x to the string thrown -/
def h2c : HMap String := fun k => if k = "x" then some "thrown" else none

/-- a concrete monitor action carrying h1c -/
def a1c : Action := { Action.default with atype := ActionType.Monitor, headers := some h1c }

/-- a concrete monitor action carrying h2c -/
def a2c : Action := { Action.default with atype := ActionType.Monitor, headers := some h2c }

/-- a concrete monitor decision carrying h1c and reason br0 -/
def d1c : Decision := { maction := some a1c, reasons := [br0] }

/-- a concrete monitor decision carrying h2c and reason brB -/
def d2c : Decision := { maction := some a2c, reasons := [brB] }

/-- the response header a decision carries for one key -/
def decisionHeader (d : Decision) (k : String) : Option String :=
  (d.maction.bind (fun a => a.headers)).bind (fun h => h k)

/-- a concrete custom simple action with the given content -/
def sCust (c : String) : SimpleAction :=
  { atype := SimpleActionT.Custom c, headers := none, status := 503, extra_tags := none }

/-- a concrete custom resolved action with the given content -/
def custAct (c : String) : Action := { Action.default with content := c }

/-- a concrete blocking decision with content a and reason br0 -/
def d1t : Decision := { maction := some (custAct "a"), reasons := [br0] }

/-- a concrete blocking decision with content b and reason brB -/
def d2t : Decision := { maction := some (custAct "b"), reasons := [brB] }

/-- a concrete raw action of type Custom with no content parameter -/
def raC4 : RawAction :=
  { id := "a1"
    type_ := RawActionType.Custom
    params := { content := none, status := none, headers := none }
    tags := [] }

/-- concrete geo-IP data for the fixture request -/
def geo0 : GeoIp :=
  { ip := some (IpAddr.V4 1)
    ipstr := "0.0.0.1"
    country_iso := none
    country_name := none
    region := none
    subregion := none
    continent_name := none
    continent_code := none
    city_name := none
    asn := none
    company := none }

/-- a concrete fixture request -/
def rinfo0 : RequestInfo :=
  { headers := [("user-agent", "curl/7.58.0")]
    cookies := []
    rinfo :=
      { host := "localhost"
        qinfo := { qpath := "/p", query := "q", uri := "/p?q", args := [] }
        meta := { method := "GET" }
        geoip := geo0 } }

/-- a negated IP leaf whose underlying predicate does not match rinfo0 -/
def entry0 : GlobalFilterEntry :=
  { negated := true, entry := GlobalFilterEntryE.Ip (IpAddr.V4 99) }

/-- a concrete enforcing global-filter section matching rinfo0 by IP -/
def gfsec : GlobalFilterSection :=
  { id := "s1"
    name := "sec one"
    tags := ["t1"]
    relation := Relation.And
    sections :=
      [{ relation := Relation.And
         entries := [{ negated := false, entry := GlobalFilterEntryE.Ip (IpAddr.V4 1) }] }]
    action := some (sCust "x") }

/-- a concrete monitor-only global-filter section matching rinfo0 by IP -/
def gfsecMon : GlobalFilterSection :=
  { gfsec with
      id := "s2"
      name := "sec two"
      action := some { atype := SimpleActionT.Monitor, headers := none, status := 503, extra_tags := none } }

/-- a concrete interactive-challenge action -/
def chAct : SimpleAction :=
  { atype := SimpleActionT.Challenge GHMode.Interactive
    headers := none
    status := 247
    extra_tags := none }

/-- a concrete regex compiler that fails exactly on the pattern bad( -/
def rcW : String → Except String Regex :=
  fun s => if s = "bad(" then Except.error "compile error" else Except.ok (fun _ => false)

/-- empty raw per-field properties -/
def rawPropsEmpty : RawWafProperties := { names := [], regex := [] }

/-- raw per-field properties holding one entry with an uncompilable pattern -/
def rawPropsBad : RawWafProperties :=
  { names := [{ key := "k", reg := some "bad(", restrict := false, mask := none, exclusions := [] }]
    regex := [] }

/-- a concrete raw profile that compiles under rcW -/
def rpGood : RawWafProfile :=
  { id := "good"
    name := "good profile"
    ignore_alphanum := true
    headers := rawPropsEmpty
    cookies := rawPropsEmpty
    args := rawPropsEmpty
    path := rawPropsEmpty
    max_header_length := 1024
    max_headers_count := 42
    max_cookie_length := 1024
    max_cookies_count := 42
    max_arg_length := 1024
    max_args_count := 512 }

/-- a concrete raw profile whose headers section fails to compile under rcW -/
def rpBad : RawWafProfile := { rpGood with id := "bad", name := "bad profile", headers := rawPropsBad }

/-- a concrete pattern compiler that fails exactly on the operand bad( -/
def pcW : String → CompileFlags → Except String Pattern :=
  fun s _ => if s = "bad(" then Except.error "compile error" else Except.ok { tag := 0 }

/-- a concrete database builder that always succeeds -/
def buildW : List Pattern → Except String VectoredDatabase :=
  fun _ => Except.ok { tag := 7 }

/-- a concrete signature whose pattern does not compile under pcW -/
def sigBad : WafSignature := { id := "sig1", operand := "bad(" }

/-- a concrete signature whose pattern compiles under pcW -/
def sigGood : WafSignature := { id := "sig2", operand := "fine" }

/-- the header-template merge performed by stronger_decision on a
Monitor-Monitor tie (the four-way match at interface/mod.rs 86-94): when
both sides carry headers, the second map's templates are inserted into the
first's (HashMap::extend); a single present side is taken as a whole. -/
def mergeTemplateHeaders :
    Option (HMap RequestTemplate) → Option (HMap RequestTemplate) → Option (HMap RequestTemplate)
  | none, none => none
  | some h1, none => some h1
  | none, some h2 => some h2
  | some h1, some h2 => some (HMap.extend h1 h2)

/-- a concrete template header map binding x to the template one -/
def t1c : HMap RequestTemplate :=
  fun k => if k = "x" then some (parse_request_template "one") else none

/-- a concrete template header map binding x to the template two -/
def t2c : HMap RequestTemplate :=
  fun k => if k = "x" then some (parse_request_template "two") else none

/-- a concrete monitor simple action carrying t1c -/
def sMonH1 : SimpleAction :=
  { atype := SimpleActionT.Monitor, headers := some t1c, status := 503, extra_tags := none }

/-- a concrete monitor simple action carrying t2c -/
def sMonH2 : SimpleAction :=
  { atype := SimpleActionT.Monitor, headers := some t2c, status := 503, extra_tags := none }

/-
Theorems.
-/

/-- the second half of the merge never loses or reorders reasons: the kept
decision's reasons come first, the thrown decision's are appended. -/
theorem mergeKept_reasons (k t : Decision) :
    (mergeKept k t).reasons = k.reasons ++ t.reasons := by
  cases k with
  | mk mact rs =>
    cases mact with
    | none => rfl
    | some a =>
      by_cases ha : a.atype = ActionType.Monitor
      · simp [mergeKept, ha]
      · simp [mergeKept, ha]

/-- the reasons of a merged decision are the two reason lists appended, in
one of the two orders (depending on which decision is kept). -/
theorem merge_decisions_reasons (d1 d2 : Decision) :
    (merge_decisions d1 d2).reasons = d1.reasons ++ d2.reasons ∨
    (merge_decisions d1 d2).reasons = d2.reasons ++ d1.reasons := by
  unfold merge_decisions
  cases h1 : d1.maction with
  | none =>
    cases h2 : d2.maction with
    | none => left; rw [mergeKept_reasons]
    | some a2 => right; rw [mergeKept_reasons]
  | some a1 =>
    cases h2 : d2.maction with
    | none => left; rw [mergeKept_reasons]
    | some a2 =>
      by_cases hp : a2.atype.priority ≤ a1.atype.priority
      · left; simp only [hp, if_true]; rw [mergeKept_reasons]
      · right; simp only [hp, if_false]; rw [mergeKept_reasons]

/-- stronger_decision concatenates the reason lists of its two arguments,
first argument first, in every case. -/
theorem stronger_decision_reasons (s1 s2 : SimpleDecision) :
    (stronger_decision s1 s2).reasons = s1.reasons ++ s2.reasons := by
  cases s1 with
  | Pass => cases s2 <;> rfl
  | Action a1 br1 =>
    cases s2 with
    | Pass => simp [stronger_decision, SimpleDecision.reasons]
    | Action a2 br2 =>
      simp only [stronger_decision, SimpleDecision.reasons]
      split_ifs <;> rfl

/-- C1: merge_decisions(d1, d2) keeps every BlockReason of d1 and of d2 in
its reason list regardless of which decision's action wins, and
stronger_decision over two Action simple decisions likewise returns a
decision whose reason list contains every reason of both arguments. -/
theorem C1_reasons_always_merged :
    (∀ (d1 d2 : Decision) (r : BlockReason),
        r ∈ d1.reasons ∨ r ∈ d2.reasons → r ∈ (merge_decisions d1 d2).reasons) ∧
    (∀ (s1 s2 : SimpleDecision) (r : BlockReason),
        r ∈ s1.reasons ∨ r ∈ s2.reasons → r ∈ (stronger_decision s1 s2).reasons) := by
  constructor
  · intro d1 d2 r hr
    rcases merge_decisions_reasons d1 d2 with h | h <;> rw [h] <;>
      rcases hr with hr | hr <;> simp [hr]
  · intro s1 s2 r hr
    rw [stronger_decision_reasons]
    rcases hr with hr | hr <;> simp [hr]

/-- C1 witness: at concrete decisions, a reason of the first and a reason
of the second argument both appear in the merged reason lists. -/
theorem C1_reasons_always_merged_witness :
    br0 ∈ (merge_decisions d1c d2c).reasons ∧
    brB ∈ (stronger_decision (SimpleDecision.Action (sCust "a") [br0])
            (SimpleDecision.Action (sCust "b") [brB])).reasons :=
  ⟨C1_reasons_always_merged.1 d1c d2c br0 (Or.inl (by simp [d1c])),
   C1_reasons_always_merged.2 (SimpleDecision.Action (sCust "a") [br0])
     (SimpleDecision.Action (sCust "b") [brB]) brB
     (Or.inr (by simp [SimpleDecision.reasons]))⟩

/-- C10: Pass is a two-sided identity for stronger_decision: the other
decision is returned unchanged, action and reason list included. -/
theorem C10_pass_identity (d : SimpleDecision) :
    stronger_decision SimpleDecision.Pass d = d ∧
    stronger_decision d SimpleDecision.Pass = d := by
  cases d <;> exact ⟨rfl, rfl⟩

/-- when both decisions carry an action and the second's priority does not
exceed the first's, the first decision is the kept one. -/
theorem merge_decisions_keep_first (d1 d2 : Decision) (a1 a2 : Action)
    (h1 : d1.maction = some a1) (h2 : d2.maction = some a2)
    (hp : a2.atype.priority ≤ a1.atype.priority) :
    merge_decisions d1 d2 = mergeKept d1 d2 := by
  unfold merge_decisions
  rw [h1, h2]
  simp [hp]

/-- the merge step changes nothing about the kept action except possibly
its headers. -/
theorem mergeKept_fields (k t : Decision) :
    (mergeKept k t).maction.map Action.atype = k.maction.map Action.atype ∧
    (mergeKept k t).maction.map Action.content = k.maction.map Action.content ∧
    (mergeKept k t).maction.map Action.status = k.maction.map Action.status ∧
    (mergeKept k t).maction.map Action.block_mode = k.maction.map Action.block_mode := by
  cases k with
  | mk mact rs =>
    cases mact with
    | none => exact ⟨rfl, rfl, rfl, rfl⟩
    | some a =>
      by_cases ha : a.atype = ActionType.Monitor
      · simp [mergeKept, ha]
      · simp [mergeKept, ha]

/-- C2 counterexample: two monitor decisions whose header maps conflict on
the key x; the kept decision d1c binds it to kept, the thrown decision d2c
binds it to thrown, and the merged decision carries the thrown decision's
value, so the kept decision's value does not win. -/
theorem C2_counterexample :
    decisionHeader (merge_decisions d1c d2c) "x" = some "thrown" ∧
    decisionHeader d1c "x" = some "kept" ∧
    decisionHeader (merge_decisions d1c d2c) "x" ≠ decisionHeader d1c "x" := by
  refine ⟨rfl, rfl, ?_⟩
  intro h
  simp only [show decisionHeader (merge_decisions d1c d2c) "x" = some "thrown" from rfl,
    show decisionHeader d1c "x" = some "kept" from rfl] at h
  exact absurd (Option.some.inj h) (by decide)

/-- C2 as amended: in merge_decisions, when the kept decision's action is
of type Monitor and headers were set on the thrown decision, the thrown
decision's headers are merged into the kept decision's headers additively,
and on a key present in both header maps the THROWN decision's value wins
(HashMap::extend overwrites); when the kept action has no headers the
thrown action's header map is taken as a whole. -/
theorem C2_monitor_header_merge (d1 d2 : Decision) (a1 a2 : Action)
    (h1 : d1.maction = some a1) (h2 : d2.maction = some a2)
    (m1 : a1.atype = ActionType.Monitor) (m2 : a2.atype = ActionType.Monitor) :
    (∀ hm1 hm2 : HMap String, a1.headers = some hm1 → a2.headers = some hm2 →
      (merge_decisions d1 d2).maction.bind (fun a => a.headers) = some (HMap.extend hm1 hm2) ∧
      (∀ k v, hm2 k = some v → HMap.extend hm1 hm2 k = some v) ∧
      (∀ k, hm2 k = none → HMap.extend hm1 hm2 k = hm1 k)) ∧
    (a1.headers = none →
      (merge_decisions d1 d2).maction.bind (fun a => a.headers) = a2.headers) := by
  have hsel : merge_decisions d1 d2 = mergeKept d1 d2 :=
    merge_decisions_keep_first d1 d2 a1 a2 h1 h2 (by rw [m1, m2])
  constructor
  · intro hm1 hm2 e1 e2
    refine ⟨?_, ?_, ?_⟩
    · rw [hsel]
      cases d1 with
      | mk mact1 rs1 =>
        cases d2 with
        | mk mact2 rs2 =>
          simp only at h1 h2
          subst h1 h2
          simp [mergeKept, m1, e1, e2]
    · intro k v hk
      simp [HMap.extend, hk]
    · intro k hk
      simp [HMap.extend, hk]
  · intro e1
    rw [hsel]
    cases d1 with
    | mk mact1 rs1 =>
      cases d2 with
      | mk mact2 rs2 =>
        simp only at h1 h2
        subst h1 h2
        simp [mergeKept, m1, e1]

/-- C2 witness: the amended header-merge behavior evaluated at the
concrete monitor decisions d1c and d2c. -/
theorem C2_monitor_header_merge_witness :
    (merge_decisions d1c d2c).maction.bind (fun a => a.headers) = some (HMap.extend h1c h2c) ∧
    HMap.extend h1c h2c "x" = some "thrown" :=
  ⟨((C2_monitor_header_merge d1c d2c a1c a2c rfl rfl rfl rfl).1 h1c h2c rfl rfl).1,
   ((C2_monitor_header_merge d1c d2c a1c a2c rfl rfl rfl rfl).1 h1c h2c rfl rfl).2.1
     "x" "thrown" rfl⟩

/-- C3 counterexample: stronger_decision over two equal-priority Custom
actions returns the second argument's action, not the first's: with
contents a and b the result is the second action, whose action type
differs from the first's. -/
theorem C3_counterexample :
    stronger_decision (SimpleDecision.Action (sCust "a") [br0])
        (SimpleDecision.Action (sCust "b") [brB])
      = SimpleDecision.Action (sCust "b") ([br0] ++ [brB]) ∧
    (sCust "b").atype ≠ (sCust "a").atype :=
  ⟨rfl, by decide⟩

/-- C3 as amended: on equal action priorities, merge_decisions keeps the
first argument's action (its type, content, status and block mode; only
headers may additionally be merged) with the first argument's reasons
first; stronger_decision instead keeps the SECOND argument's action on an
equal-priority tie, except when both actions are Monitor, in which case it
keeps the first argument's action with headers merged from both. -/
theorem C3_tie_break :
    (∀ (d1 d2 : Decision) (a1 a2 : Action),
        d1.maction = some a1 → d2.maction = some a2 →
        a1.atype.priority = a2.atype.priority →
        (merge_decisions d1 d2).reasons = d1.reasons ++ d2.reasons ∧
        (merge_decisions d1 d2).maction.map Action.atype = some a1.atype ∧
        (merge_decisions d1 d2).maction.map Action.content = some a1.content ∧
        (merge_decisions d1 d2).maction.map Action.status = some a1.status) ∧
    (∀ (s1 s2 : SimpleAction) (br1 br2 : List BlockReason),
        s1.atype.priority = s2.atype.priority →
        ¬(s1.atype = SimpleActionT.Monitor ∧ s2.atype = SimpleActionT.Monitor) →
        stronger_decision (SimpleDecision.Action s1 br1) (SimpleDecision.Action s2 br2)
          = SimpleDecision.Action s2 (br1 ++ br2)) ∧
    (∀ (s1 s2 : SimpleAction) (br1 br2 : List BlockReason),
        s1.atype = SimpleActionT.Monitor → s2.atype = SimpleActionT.Monitor →
        stronger_decision (SimpleDecision.Action s1 br1) (SimpleDecision.Action s2 br2)
          = SimpleDecision.Action
              { s1 with headers := mergeTemplateHeaders s1.headers s2.headers }
              (br1 ++ br2) ∧
        (∀ hm1 hm2 : HMap RequestTemplate,
          s1.headers = some hm1 → s2.headers = some hm2 →
          mergeTemplateHeaders s1.headers s2.headers = some (HMap.extend hm1 hm2)) ∧
        (s1.headers = none → mergeTemplateHeaders s1.headers s2.headers = s2.headers) ∧
        (s2.headers = none → mergeTemplateHeaders s1.headers s2.headers = s1.headers)) := by
  refine ⟨?_, ?_, ?_⟩
  · intro d1 d2 a1 a2 h1 h2 hp
    have hsel : merge_decisions d1 d2 = mergeKept d1 d2 :=
      merge_decisions_keep_first d1 d2 a1 a2 h1 h2 (le_of_eq hp.symm)
    rw [hsel]
    have hf := mergeKept_fields d1 d2
    refine ⟨mergeKept_reasons d1 d2, ?_, ?_, ?_⟩
    · rw [hf.1, h1]; rfl
    · rw [hf.2.1, h1]; rfl
    · rw [hf.2.2.1, h1]; rfl
  · intro s1 s2 br1 br2 hp hmon
    have hlt : ¬ s2.atype.priority < s1.atype.priority := by omega
    simp [stronger_decision, hlt, hmon]
  · intro s1 s2 br1 br2 m1 m2
    have hlt : ¬ s2.atype.priority < s1.atype.priority := by rw [m1, m2]; omega
    refine ⟨?_, ?_, ?_, ?_⟩
    · cases e1 : s1.headers <;> cases e2 : s2.headers <;>
        simp [stronger_decision, hlt, m1, m2, mergeTemplateHeaders, e1, e2]
    · intro hm1 hm2 e1 e2
      rw [e1, e2]
      rfl
    · intro e1
      rw [e1]
      cases s2.headers <;> rfl
    · intro e2
      rw [e2]
      cases s1.headers <;> rfl

/-- C3 witness: the amended tie-break behavior evaluated at concrete
decisions: merge_decisions keeps the first argument's content on a tie,
stronger_decision returns the second argument's action on a non-Monitor
tie, and on a Monitor-Monitor tie it keeps the first action with the
second's header templates merged in. -/
theorem C3_tie_break_witness :
    (merge_decisions d1t d2t).reasons = [br0] ++ [brB] ∧
    (merge_decisions d1t d2t).maction.map Action.content = some "a" ∧
    stronger_decision (SimpleDecision.Action (sCust "a") [br0])
        (SimpleDecision.Action (sCust "b") [brB])
      = SimpleDecision.Action (sCust "b") ([br0] ++ [brB]) ∧
    stronger_decision (SimpleDecision.Action sMonH1 [br0])
        (SimpleDecision.Action sMonH2 [brB])
      = SimpleDecision.Action
          { sMonH1 with headers := mergeTemplateHeaders sMonH1.headers sMonH2.headers }
          ([br0] ++ [brB]) ∧
    mergeTemplateHeaders sMonH1.headers sMonH2.headers = some (HMap.extend t1c t2c) ∧
    HMap.extend t1c t2c "x" = some (parse_request_template "two") :=
  ⟨(C3_tie_break.1 d1t d2t (custAct "a") (custAct "b") rfl rfl rfl).1,
   (C3_tie_break.1 d1t d2t (custAct "a") (custAct "b") rfl rfl rfl).2.2.1,
   C3_tie_break.2.1 (sCust "a") (sCust "b") [br0] [brB] rfl (by decide),
   (C3_tie_break.2.2 sMonH1 sMonH2 [br0] [brB] rfl rfl).1,
   (C3_tie_break.2.2 sMonH1 sMonH2 [br0] [brB] rfl rfl).2.1 t1c t2c rfl rfl,
   rfl⟩

/-- C4 counterexample: resolving a concrete raw action of type Custom with
no content parameter yields a Custom action whose content is the empty
string (unwrap_or_default), not the literal string blocked. -/
theorem C4_counterexample :
    (SimpleAction.resolve raC4).toOption.map (fun p => p.2.atype)
      = some (SimpleActionT.Custom "") ∧
    SimpleActionT.Custom "" ≠ SimpleActionT.Custom "blocked" :=
  ⟨rfl, by decide⟩

/-- C4 as amended: config-time resolution maps a raw action of type Custom
whose content parameter is unspecified to SimpleActionT::Custom with
content equal to the EMPTY string (unwrap_or_default); the literal string
blocked is only the content of the separate Default instance of
SimpleActionT, which resolve does not consult. -/
theorem C4_custom_default_content (ra : RawAction)
    (ht : ra.type_ = RawActionType.Custom) (hc : ra.params.content = none) :
    (SimpleAction.resolve ra).toOption.map (fun p => p.2.atype)
      = some (SimpleActionT.Custom "") ∧
    SimpleActionT.default = SimpleActionT.Custom "blocked" := by
  refine ⟨?_, rfl⟩
  simp only [SimpleAction.resolve, ht, hc, Option.getD_none, Except.toOption, Option.map_some]
  rfl

/-- C4 witness: the amended resolution behavior evaluated at the concrete
raw action raC4. -/
theorem C4_custom_default_content_witness :
    (SimpleAction.resolve raC4).toOption.map (fun p => p.2.atype)
      = some (SimpleActionT.Custom "") ∧
    SimpleActionT.default = SimpleActionT.Custom "blocked" :=
  C4_custom_default_content raC4 rfl rfl

/-- C6: a negated leaf whose underlying predicate does not match satisfies
the boolean condition (matching is true) but contributes an empty
matched-location set. -/
theorem C6_negated_nonmatch_empty_evidence (rinfo : RequestInfo) (tags : Tags)
    (sub : GlobalFilterEntry) (hneg : sub.negated = true)
    (hnm : entryMatchR rinfo tags sub.entry = none) :
    check_entry rinfo tags sub = { matched := [], matching := true } := by
  unfold check_entry
  rw [hnm, hneg]

/-- C6 witness: the negated, non-matching IP predicate entry0 evaluated on
the concrete request rinfo0: the raw predicate does not match, and
check_entry returns matching with empty location evidence. -/
theorem C6_negated_nonmatch_empty_evidence_witness :
    entryMatchR rinfo0 Tags.default entry0.entry = none ∧
    check_entry rinfo0 Tags.default entry0 = { matched := [], matching := true } :=
  ⟨rfl, C6_negated_nonmatch_empty_evidence rinfo0 Tags.default entry0 rfl rfl⟩

/-- the boolean outcome of the And fold over any starting accumulator. -/
theorem relation_fold_and {A : Type} (rinfo : RequestInfo) (tags : Tags)
    (checker : RequestInfo → Tags → A → MatchResult) (elems : List A) (acc : MatchResult) :
    (elems.foldl (relationStep rinfo tags Relation.And checker) acc).matching
      = (acc.matching && elems.all (fun e => (checker rinfo tags e).matching)) := by
  induction elems generalizing acc with
  | nil => simp
  | cons x xs ih =>
    rw [List.foldl_cons, ih]
    simp [relationStep, Bool.and_assoc]

/-- the boolean outcome of the Or fold over any starting accumulator. -/
theorem relation_fold_or {A : Type} (rinfo : RequestInfo) (tags : Tags)
    (checker : RequestInfo → Tags → A → MatchResult) (elems : List A) (acc : MatchResult) :
    (elems.foldl (relationStep rinfo tags Relation.Or checker) acc).matching
      = (acc.matching || elems.any (fun e => (checker rinfo tags e).matching)) := by
  induction elems generalizing acc with
  | nil => simp
  | cons x xs ih =>
    rw [List.foldl_cons, ih]
    simp [relationStep, Bool.or_assoc]

/-- C7: check_relation folds its children's boolean results starting from
true with logical and when the relation is And (so it equals all-of), and
starting from false with logical or when the relation is Or (so it equals
any-of); in particular an empty element list under And evaluates to true
and an empty list under Or evaluates to false.  This is the one fold used
at both tree levels (check_subsection over leaves, and tag_request over
subsections). -/
theorem C7_relation_fold_semantics {A : Type} (rinfo : RequestInfo) (tags : Tags)
    (elems : List A) (checker : RequestInfo → Tags → A → MatchResult) :
    (check_relation rinfo tags Relation.And elems checker).matching
      = elems.all (fun e => (checker rinfo tags e).matching) ∧
    (check_relation rinfo tags Relation.Or elems checker).matching
      = elems.any (fun e => (checker rinfo tags e).matching) ∧
    (check_relation rinfo tags Relation.And ([] : List A) checker).matching = true ∧
    (check_relation rinfo tags Relation.Or ([] : List A) checker).matching = false := by
  refine ⟨?_, ?_, rfl, rfl⟩
  · rw [check_relation, relation_fold_and]
    simp
  · rw [check_relation, relation_fold_or]
    simp

/-- a matching section whose action is neither Monitor nor a Challenge on
a human request stops the loop at once: the result does not depend on the
remaining sections. -/
theorem tagLoop_enforce (is_human : Bool) (rinfo : RequestInfo)
    (s : GlobalFilterSection) (rest : List GlobalFilterSection) (tags : Tags) (n : Nat)
    (a : SimpleAction)
    (hm : (check_relation rinfo tags s.relation s.sections check_subsection).matching = true)
    (ha : s.action = some a) (hs : ¬ softAction a is_human) :
    tagLoop is_human rinfo (s :: rest) tags n =
      (tags.extend (withLocs s.tags
        (check_relation rinfo tags s.relation s.sections check_subsection).matched),
       SimpleDecision.Action a [BlockReason.global_filter s.id s.name],
       n + 1) := by
  simp [tagLoop, hm, ha, hs]

/-- a matching section with a Monitor action, or a Challenge action on a
human request, only applies its tags and the loop continues with the
remaining sections. -/
theorem tagLoop_soft (is_human : Bool) (rinfo : RequestInfo)
    (s : GlobalFilterSection) (rest : List GlobalFilterSection) (tags : Tags) (n : Nat)
    (a : SimpleAction)
    (hm : (check_relation rinfo tags s.relation s.sections check_subsection).matching = true)
    (ha : s.action = some a) (hs : softAction a is_human) :
    tagLoop is_human rinfo (s :: rest) tags n =
      tagLoop is_human rinfo rest
        (tags.extend (withLocs s.tags
          (check_relation rinfo tags s.relation s.sections check_subsection).matched))
        (n + 1) := by
  simp [tagLoop, hm, ha, hs]

/-- when no section enforces an action along the walk, the loop ends in
Pass. -/
theorem tagLoop_noEnforce_pass (is_human : Bool) (rinfo : RequestInfo)
    (sections : List GlobalFilterSection) (tags : Tags) (n : Nat)
    (h : noEnforce is_human rinfo sections tags = true) :
    (tagLoop is_human rinfo sections tags n).2.1 = SimpleDecision.Pass := by
  induction sections generalizing tags n with
  | nil => rfl
  | cons s rest ih =>
    by_cases hm : (check_relation rinfo tags s.relation s.sections check_subsection).matching
    · cases ha : s.action with
      | none =>
        simp only [noEnforce, hm, if_true, ha] at h
        simp only [tagLoop, hm, if_true, ha]
        exact ih _ _ h
      | some a =>
        by_cases hs : softAction a is_human
        · simp only [noEnforce, hm, if_true, ha, hs, if_pos] at h
          simp only [tagLoop, hm, if_true, ha]
          rw [if_pos hs]
          exact ih _ _ h
        · simp only [noEnforce, hm, if_true, ha] at h
          rw [if_neg hs] at h
          exact absurd h (by simp)
    · simp only [noEnforce, hm, if_false] at h
      simp only [tagLoop, hm, if_false]
      exact ih _ _ h

/-- C5: during global-filter evaluation, a matching section whose declared
action is Monitor, or Challenge while the request is classified human,
only applies its tags and evaluation continues with the remaining
sections; a matching section with any other action immediately returns
Action(action, [global_filter(section id, section name)]) without
evaluating later sections; when no section enforces an action, the
decision is Pass with the accumulated tags; and tag_request is the loop
run on the baseline tags. -/
theorem C5_tag_request_flow :
    (∀ (is_human : Bool) (rinfo : RequestInfo) (s : GlobalFilterSection)
       (rest : List GlobalFilterSection) (tags : Tags) (n : Nat) (a : SimpleAction),
        (check_relation rinfo tags s.relation s.sections check_subsection).matching = true →
        s.action = some a → ¬ softAction a is_human →
        tagLoop is_human rinfo (s :: rest) tags n =
          (tags.extend (withLocs s.tags
            (check_relation rinfo tags s.relation s.sections check_subsection).matched),
           SimpleDecision.Action a [BlockReason.global_filter s.id s.name],
           n + 1)) ∧
    (∀ (is_human : Bool) (rinfo : RequestInfo) (s : GlobalFilterSection)
       (rest : List GlobalFilterSection) (tags : Tags) (n : Nat) (a : SimpleAction),
        (check_relation rinfo tags s.relation s.sections check_subsection).matching = true →
        s.action = some a → softAction a is_human →
        tagLoop is_human rinfo (s :: rest) tags n =
          tagLoop is_human rinfo rest
            (tags.extend (withLocs s.tags
              (check_relation rinfo tags s.relation s.sections check_subsection).matched))
            (n + 1)) ∧
    (∀ (is_human : Bool) (rinfo : RequestInfo) (sections : List GlobalFilterSection)
       (tags : Tags) (n : Nat),
        noEnforce is_human rinfo sections tags = true →
        (tagLoop is_human rinfo sections tags n).2.1 = SimpleDecision.Pass) ∧
    (∀ (stats : StatsCollect) (is_human : Bool) (gfs : List GlobalFilterSection)
       (rinfo : RequestInfo),
        (tag_request stats is_human gfs rinfo).2.1 =
          (tagLoop is_human rinfo gfs (baselineTags is_human rinfo) 0).2.1) :=
  ⟨tagLoop_enforce, tagLoop_soft, tagLoop_noEnforce_pass,
   fun _ _ _ _ => rfl⟩

/-- C5 witness: on the concrete request rinfo0, the enforcing section
gfsec short-circuits the loop with a single global-filter reason no matter
what sections follow, while a list holding only the monitor section
gfsecMon ends in Pass. -/
theorem C5_tag_request_flow_witness :
    tagLoop false rinfo0 (gfsec :: [gfsecMon]) Tags.default 0 =
      (Tags.default.extend (withLocs gfsec.tags
        (check_relation rinfo0 Tags.default gfsec.relation gfsec.sections check_subsection).matched),
       SimpleDecision.Action (sCust "x") [BlockReason.global_filter "s1" "sec one"],
       1) ∧
    (tagLoop false rinfo0 [gfsecMon] Tags.default 0).2.1 = SimpleDecision.Pass :=
  ⟨C5_tag_request_flow.1 false rinfo0 gfsec [gfsecMon] Tags.default 0 (sCust "x")
     rfl rfl (by decide),
   C5_tag_request_flow.2.2.1 false rinfo0 [gfsecMon] Tags.default 0 rfl⟩

/-- C8: a challenge action whose precision requirement is unmet, evaluated
with no challenge capability, resolves to the default blocking Action:
type Block, status 503, content request denied, with the accumulated block
reasons attached unchanged. -/
theorem C8_unmet_challenge_default_block (self : SimpleAction) (mode : GHMode)
    (pl : PrecisionLevel) (rinfo : RequestInfo) (tags : Tags) (reason : List BlockReason)
    (ha : self.atype = SimpleActionT.Challenge mode)
    (hpl : (match mode with
            | GHMode.Passive => pl.is_human
            | GHMode.Active => pl.is_human
            | GHMode.Interactive => pl.is_interactive) = false) :
    (to_decision self pl none rinfo tags reason).1 = Decision.action Action.default reason ∧
    Action.default.atype = ActionType.Block ∧
    Action.default.status = 503 ∧
    Action.default.content = "request denied" := by
  refine ⟨?_, rfl, rfl, rfl⟩
  cases self with
  | mk atype headers status extra_tags =>
    simp only at ha
    subst ha
    simp only [to_decision, build_decision]
    cases mode <;> simp_all

/-- C8 witness: the interactive-challenge action chAct, evaluated against
a human but non-interactive precision level with no challenge capability,
falls back to the default blocking action with the reasons kept. -/
theorem C8_unmet_challenge_default_block_witness :
    (to_decision chAct { human := true, interactive := false } none rinfo0
        Tags.default [br0]).1 = Decision.action Action.default [br0] ∧
    Action.default.status = 503 :=
  ⟨(C8_unmet_challenge_default_block chAct GHMode.Interactive
      { human := true, interactive := false } rinfo0 Tags.default [br0] rfl rfl).1,
   rfl⟩

/-- a successfully converted profile is keyed by the raw profile's id. -/
theorem convert_entry_ok_id (rc : String → Except String Regex) (rp : RawWafProfile)
    (kv : String × WafProfile) (h : convert_entry rc rp = Except.ok kv) :
    kv.1 = rp.id := by
  unfold convert_entry at h
  cases h1 : mk_section rc rp.headers rp.max_header_length rp.max_headers_count with
  | error e => rw [h1] at h; simp [Bind.bind, Except.bind] at h
  | ok hs =>
  rw [h1] at h
  cases h2 : mk_section rc rp.cookies rp.max_cookie_length rp.max_cookies_count with
  | error e => rw [h2] at h; simp [Bind.bind, Except.bind] at h
  | ok cs =>
  rw [h2] at h
  cases h3 : mk_section rc rp.args rp.max_arg_length rp.max_args_count with
  | error e => rw [h3] at h; simp [Bind.bind, Except.bind] at h
  | ok as_ =>
  rw [h3] at h
  cases h4 : mk_section rc rp.path rp.max_arg_length rp.max_args_count with
  | error e => rw [h4] at h; simp [Bind.bind, Except.bind] at h
  | ok ps =>
  rw [h4] at h
  simp only [Bind.bind, Except.bind, Except.ok.injEq] at h
  rw [← h]

/-- membership in the profile fold: an id is present exactly when the
accumulator already holds it or some profile with that id compiles. -/
theorem resolve_fold_isSome (rc : String → Except String Regex)
    (raw : List RawWafProfile) (acc : HMap WafProfile) (id : String) :
    ((raw.foldl (resolveStep rc) acc) id).isSome ↔
      ((acc id).isSome ∨ ∃ rp, rp ∈ raw ∧ rp.id = id ∧ (convert_entry rc rp).isOk) := by
  induction raw generalizing acc with
  | nil => simp
  | cons rp rest ih =>
    rw [List.foldl_cons, ih]
    cases hce : convert_entry rc rp with
    | error e =>
      rw [show resolveStep rc acc rp = acc by simp [resolveStep, hce]]
      constructor
      · rintro (h | ⟨rp', hmem, hid, hok⟩)
        · exact Or.inl h
        · exact Or.inr ⟨rp', List.mem_cons_of_mem _ hmem, hid, hok⟩
      · rintro (h | ⟨rp', hmem, hid, hok⟩)
        · exact Or.inl h
        · rcases List.mem_cons.mp hmem with rfl | hmem'
          · rw [hce] at hok; exact absurd hok (by simp [Except.isOk, Except.toBool])
          · exact Or.inr ⟨rp', hmem', hid, hok⟩
    | ok kv =>
      have hid := convert_entry_ok_id rc rp kv hce
      rw [show resolveStep rc acc rp = acc.insert kv.1 kv.2 by simp [resolveStep, hce]]
      by_cases heq : id = rp.id
      · constructor
        · intro _
          exact Or.inr ⟨rp, List.mem_cons_self _ _, heq.symm, by rw [hce]; rfl⟩
        · intro _
          left
          simp [HMap.insert, hid, heq]
      · rw [show ((acc.insert kv.1 kv.2) id) = acc id by simp [HMap.insert, hid, heq]]
        constructor
        · rintro (h | ⟨rp', hmem, hid', hok⟩)
          · exact Or.inl h
          · exact Or.inr ⟨rp', List.mem_cons_of_mem _ hmem, hid', hok⟩
        · rintro (h | ⟨rp', hmem, hid', hok⟩)
          · exact Or.inl h
          · rcases List.mem_cons.mp hmem with rfl | hmem'
            · exact absurd hid' (by exact fun hh => heq hh.symm)
            · exact Or.inr ⟨rp', hmem', hid', hok⟩

/-- a failing element makes the whole fallible map fail. -/
theorem mapExcept_err_of_mem {E A B : Type} (f : A → Except E B) (l : List A) (s : A)
    (hmem : s ∈ l) (herr : (f s).isOk = false) : (mapExcept f l).isOk = false := by
  induction l with
  | nil => cases hmem
  | cons a rest ih =>
    cases hfa : f a with
    | error e => simp [mapExcept, hfa, Bind.bind, Except.bind, Except.isOk, Except.toBool]
    | ok b =>
      rcases List.mem_cons.mp hmem with rfl | hmem'
      · rw [hfa] at herr; exact absurd herr (by simp [Except.isOk, Except.toBool])
      · have hrest := ih hmem'
        cases hr : mapExcept f rest with
        | error e => simp [mapExcept, hfa, hr, Bind.bind, Except.bind, Except.isOk, Except.toBool]
        | ok bs => rw [hr] at hrest; exact absurd hrest (by simp [Except.isOk, Except.toBool])

/-- C9: configuration compilation isolates errors per entity for WAF
profiles: the resolved map contains exactly the ids of raw profiles whose
conversion succeeds, a failing profile being dropped while the rest of the
load proceeds; by contrast the signature database is all-or-nothing: as
soon as any single signature pattern fails to compile the whole
resolve_signatures call returns an error and no database, and it returns
the database over all signatures only when every one compiles and the
build succeeds. -/
theorem C9_per_entity_vs_all_or_nothing :
    (∀ (rc : String → Except String Regex) (raw : List RawWafProfile) (id : String),
        ((WafProfile.resolve rc raw) id).isSome ↔
          ∃ rp, rp ∈ raw ∧ rp.id = id ∧ (convert_entry rc rp).isOk) ∧
    (∀ (pc : String → CompileFlags → Except String Pattern)
       (build : List Pattern → Except String VectoredDatabase)
       (raws : List WafSignature) (s : WafSignature),
        s ∈ raws → (convert_signature pc s).isOk = false →
        (resolve_signatures pc build raws).isOk = false) ∧
    (∀ (pc : String → CompileFlags → Except String Pattern)
       (build : List Pattern → Except String VectoredDatabase)
       (raws : List WafSignature) (ps : List Pattern) (db : VectoredDatabase),
        mapExcept (convert_signature pc) raws = Except.ok ps →
        build ps = Except.ok db →
        resolve_signatures pc build raws = Except.ok { db := db, ids := raws }) := by
  refine ⟨?_, ?_, ?_⟩
  · intro rc raw id
    rw [WafProfile.resolve, resolve_fold_isSome]
    simp [HMap.empty]
  · intro pc build raws s hmem herr
    have h := mapExcept_err_of_mem (convert_signature pc) raws s hmem herr
    cases hm : mapExcept (convert_signature pc) raws with
    | error e => simp [resolve_signatures, hm, Bind.bind, Except.bind, Except.isOk, Except.toBool]
    | ok ps => rw [hm] at h; exact absurd h (by simp [Except.isOk, Except.toBool])
  · intro pc build raws ps db hm hb
    simp [resolve_signatures, hm, hb, Bind.bind, Except.bind]

/-- C9 witness: under the concrete compiler rcW, resolving the profile list
holding one good and one bad profile keeps the good id; and the signature
list holding one failing signature makes resolve_signatures fail while an
all-good list succeeds. -/
theorem C9_per_entity_vs_all_or_nothing_witness :
    ((WafProfile.resolve rcW [rpGood, rpBad]) "good").isSome ∧
    (resolve_signatures pcW buildW [sigGood, sigBad]).isOk = false ∧
    resolve_signatures pcW buildW [sigGood] =
      Except.ok { db := { tag := 7 }, ids := [sigGood] } :=
  ⟨(C9_per_entity_vs_all_or_nothing.1 rcW [rpGood, rpBad] "good").mpr
     ⟨rpGood, by simp, rfl, by rfl⟩,
   C9_per_entity_vs_all_or_nothing.2.1 pcW buildW [sigGood, sigBad] sigBad
     (by simp) (by rfl),
   C9_per_entity_vs_all_or_nothing.2.2 pcW buildW [sigGood] [{ tag := 0 }]
     { tag := 7 } (by rfl) (by rfl)⟩

end Curiefense
